import Mathlib

/-!
# Log Analytics linked storage account resource

A shallow embedding of
`internal/services/loganalytics/log_analytics_linked_storage_account_resource.go`.

* The resource data `d` is a record of the identifier, the `IsNewResource` flag and the four
  schema fields; the three hooks return the error (if any), the resource data they leave behind
  and the log of remote calls issued so far.
* The remote management API is a client whose answers are a function of the calls issued so far
  and of the current request, so a statement quantified over every client holds for every
  possible sequence of answers.
* The identifier package (`linkedstorageaccounts`: parsing and formatting of identifiers) is an
  external collaborator; the hooks take it as a parameter `IdLib`.
* Contexts, deadlines and log output do not influence the results and are left out.
-/

namespace LogAnalytics

/-! ## Identifiers -/

/-- Structured workspace identifier (`linkedstorageaccounts.WorkspaceId`). -/
structure WorkspaceId where
  SubscriptionId : String
  ResourceGroupName : String
  WorkspaceName : String
deriving DecidableEq, Repr

/-- Structured identifier of a linked storage account (`linkedstorageaccounts.DataSourceTypeId`). -/
structure DataSourceTypeId where
  SubscriptionId : String
  ResourceGroupName : String
  WorkspaceName : String
  DataSourceType : String
deriving DecidableEq, Repr

/-- Constructor `linkedstorageaccounts.NewWorkspaceID`. -/
def NewWorkspaceID (subscriptionId resourceGroupName workspaceName : String) : WorkspaceId :=
  ⟨subscriptionId, resourceGroupName, workspaceName⟩

/-- Constructor `linkedstorageaccounts.NewDataSourceTypeID`. -/
def NewDataSourceTypeID (subscriptionId resourceGroupName workspaceName dataSourceType : String) :
    DataSourceTypeId :=
  ⟨subscriptionId, resourceGroupName, workspaceName, dataSourceType⟩

/-- The functions of the identifier package used by the resource: the two parsers and the two
`ID()` formatters. The package is not part of the resource file, so it is a parameter. -/
structure IdLib where
  ParseWorkspaceID : String → Except String WorkspaceId
  ParseDataSourceTypeIDInsensitively : String → Except String DataSourceTypeId
  WorkspaceID : WorkspaceId → String
  DataSourceTypeID : DataSourceTypeId → String

/-! ## Remote API -/

/-- Properties of the remote model (`LinkedStorageAccountsProperties`); both are pointers. -/
structure LinkedStorageAccountsProperties where
  DataSourceType : Option String
  StorageAccountIds : Option (List String)
deriving DecidableEq, Repr

/-- Remote model (`LinkedStorageAccountsResource`); only `Properties` is used by the resource. -/
structure LinkedStorageAccountsResource where
  Properties : LinkedStorageAccountsProperties
deriving DecidableEq, Repr

/-- Result of `client.Get`: the HTTP response (`none` is a nil response, otherwise its status
code) and the model pointer. -/
structure GetOperationResponse where
  HttpResponse : Option Nat
  Model : Option LinkedStorageAccountsResource
deriving DecidableEq, Repr

/-- A call issued to the remote API. -/
inductive Call where
  | Get (id : DataSourceTypeId)
  | CreateOrUpdate (id : DataSourceTypeId) (input : LinkedStorageAccountsResource)
  | Delete (id : DataSourceTypeId)
deriving DecidableEq, Repr

/-- The linked storage account client. Each operation answers from the calls issued before it
and its own arguments; the second component of `Get` and the results of `CreateOrUpdate` and
`Delete` are the Go `error` (`none` is nil). The operation results that the resource discards
(`_`) are not modelled. -/
structure LinkedStorageAccountClient where
  Get : List Call → DataSourceTypeId → GetOperationResponse × Option String
  CreateOrUpdate : List Call → DataSourceTypeId → LinkedStorageAccountsResource → Option String
  Delete : List Call → DataSourceTypeId → Option String

/-- Helper `response.WasNotFound`: the response is present and its status code is 404. -/
def WasNotFound (resp : Option Nat) : Bool :=
  match resp with
  | some code => code == 404
  | none => false

/-! ## Resource data -/

/-- The resource data `d`: identifier, `IsNewResource` and the schema fields.
`storage_account_ids` is a `TypeSet` of strings. -/
structure ResourceData where
  Id : String
  IsNewResource : Bool
  data_source_type : String
  resource_group_name : String
  workspace_resource_id : String
  storage_account_ids : Finset String
deriving DecidableEq

/-- Method `d.SetId`. -/
def ResourceData.SetId (d : ResourceData) (v : String) : ResourceData :=
  { d with Id := v }

/-- `d.Set("resource_group_name", v)`. -/
def ResourceData.Set_resource_group_name (d : ResourceData) (v : String) : ResourceData :=
  { d with resource_group_name := v }

/-- `d.Set("workspace_resource_id", v)`. -/
def ResourceData.Set_workspace_resource_id (d : ResourceData) (v : String) : ResourceData :=
  { d with workspace_resource_id := v }

/-- `d.Set("data_source_type", v)`. -/
def ResourceData.Set_data_source_type (d : ResourceData) (v : String) : ResourceData :=
  { d with data_source_type := v }

/-- `d.Set("storage_account_ids", v)` with a `[]string`: the set of the elements of the slice
(a nil slice is the empty list). -/
def ResourceData.Set_storage_account_ids (d : ResourceData) (v : List String) : ResourceData :=
  { d with storage_account_ids := v.toFinset }

/-- `(*pluginsdk.Set).List()`: the elements of the set, each once. The SDK lists them in the
order of their hash codes; the order used here is the one of the strings. -/
def SetList (s : Finset String) : List String :=
  s.sort (· ≤ ·)

/-- Modelled from the spec: `utils.ExpandStringSlice` is not in the resource file; the
create-or-update call is issued "with the current storage_account_ids", so the helper returns a
non-nil pointer to the slice of the listed strings. -/
def ExpandStringSlice (input : List String) : Option (List String) :=
  some input

/-! ## Errors -/

/-- The errors the hooks return, one constructor per `return` statement. -/
inductive Err where
  /-- An error of the identifier package returned as it is (`return err`). -/
  | parse (msg : String)
  /-- `fmt.Errorf("%v", err)` on the error of `ParseWorkspaceID`. -/
  | workspace (msg : String)
  /-- `fmt.Errorf("checking for presence of existing %s: %+v", id, err)`. -/
  | checkingPresence (id : DataSourceTypeId) (cause : String)
  /-- `tf.ImportAsExistsError(resourceName, id)`: the resource already exists and has to be
  imported. -/
  | ImportAsExistsError (resourceName : String) (id : String)
  /-- `fmt.Errorf("creating/updating %s: %+v", id, err)`. -/
  | creatingUpdating (id : DataSourceTypeId) (cause : String)
  /-- `fmt.Errorf("retrieving %s: %+v", id, err)`. -/
  | retrieving (id : DataSourceTypeId) (cause : String)
  /-- `fmt.Errorf("deleting %s: %+v", id, err)`. -/
  | deleting (id : DataSourceTypeId) (cause : String)
deriving DecidableEq, Repr

/-- What a hook leaves behind: the returned error (`none` is nil), the resource data and the
log of the remote calls issued so far. -/
structure Outcome where
  err : Option Err
  d : ResourceData
  calls : List Call

/-! ## Schema validation -/

/-- ASCII lower-casing, as `strings.ToLower` acts on the ASCII constants it is applied to. -/
def ToLower (s : String) : String :=
  String.mk (s.data.map Char.toLower)

/-- Case-insensitive comparison `strings.EqualFold`, on ASCII letters. -/
def EqualFold (s t : String) : Bool :=
  ToLower s == ToLower t

/-- Validator `validation.StringInSlice(valid, ignoreCase)` applied to the string `v`: the list of
errors, empty when `v` is accepted. -/
def StringInSlice (valid : List String) (ignoreCase : Bool) (v : String) : List String :=
  if valid.any (fun str => v == str || (ignoreCase && EqualFold v str)) then []
  else ["expected data_source_type to be one of the valid values, got " ++ v]

/-- Constant `linkedstorageaccounts.DataSourceTypeCustomLogs`. -/
def DataSourceTypeCustomLogs : String := "CustomLogs"

/-- Constant `linkedstorageaccounts.DataSourceTypeAzureWatson`. -/
def DataSourceTypeAzureWatson : String := "AzureWatson"

/-- Constant `linkedstorageaccounts.DataSourceTypeQuery`. -/
def DataSourceTypeQuery : String := "Query"

/-- Constant `linkedstorageaccounts.DataSourceTypeAlerts`. -/
def DataSourceTypeAlerts : String := "Alerts"

/-- The `ValidateFunc` of `data_source_type` in `resourceLogAnalyticsLinkedStorageAccount`:
the lower-cased constants and `"ingestion"`, with `ignoreCase` set to `false`. -/
def dataSourceTypeValidateFunc (v : String) : List String :=
  StringInSlice
    [ToLower DataSourceTypeCustomLogs,
     ToLower DataSourceTypeAzureWatson,
     ToLower DataSourceTypeQuery,
     ToLower DataSourceTypeAlerts,
     "ingestion"]
    false v

/-! ## The hooks -/

/-- Read hook `resourceLogAnalyticsLinkedStorageAccountRead`. -/
def resourceLogAnalyticsLinkedStorageAccountRead (lib : IdLib)
    (client : LinkedStorageAccountClient) (d : ResourceData) (log : List Call) : Outcome :=
  match lib.ParseDataSourceTypeIDInsensitively d.Id with
  | .error e => ⟨some (Err.parse e), d, log⟩
  | .ok id =>
    let resp := (client.Get log id).1
    let log1 := log ++ [Call.Get id]
    match (client.Get log id).2 with
    | some e =>
      if WasNotFound resp.HttpResponse then ⟨none, d.SetId "", log1⟩
      else ⟨some (Err.retrieving id e), d, log1⟩
    | none =>
      let d1 := d.Set_resource_group_name id.ResourceGroupName
      let d2 := d1.Set_workspace_resource_id
        (lib.WorkspaceID (NewWorkspaceID id.SubscriptionId id.ResourceGroupName id.WorkspaceName))
      match resp.Model with
      | some model =>
        let props := model.Properties
        let storageAccountIds : List String :=
          match props.StorageAccountIds with
          | some ids => ids
          | none => []
        let d3 := d2.Set_storage_account_ids storageAccountIds
        let dataSourceType : String :=
          match props.DataSourceType with
          | some t => t
          | none => ""
        ⟨none, d3.Set_data_source_type dataSourceType, log1⟩
      | none => ⟨none, d2, log1⟩

/-- The identifier derived by `resourceLogAnalyticsLinkedStorageAccountCreateUpdate` from the
parsed workspace and the fields `resource_group_name` and `data_source_type`. -/
def derivedId (workspace : WorkspaceId) (d : ResourceData) : DataSourceTypeId :=
  NewDataSourceTypeID workspace.SubscriptionId d.resource_group_name workspace.WorkspaceName
    d.data_source_type

/-- The `parameters` of the create-or-update call. -/
def createParameters (d : ResourceData) : LinkedStorageAccountsResource :=
  ⟨⟨none, ExpandStringSlice (SetList d.storage_account_ids)⟩⟩

/-- The part of `resourceLogAnalyticsLinkedStorageAccountCreateUpdate` after the existence
probe: the create-or-update call, `SetId` and the reconciling Read. -/
def createUpdateAfterProbe (lib : IdLib) (client : LinkedStorageAccountClient)
    (d : ResourceData) (id : DataSourceTypeId) (log : List Call) : Outcome :=
  let parameters := createParameters d
  let log1 := log ++ [Call.CreateOrUpdate id parameters]
  match client.CreateOrUpdate log id parameters with
  | some e => ⟨some (Err.creatingUpdating id e), d, log1⟩
  | none =>
    resourceLogAnalyticsLinkedStorageAccountRead lib client (d.SetId (lib.DataSourceTypeID id)) log1

/-- Create and update hook `resourceLogAnalyticsLinkedStorageAccountCreateUpdate`. -/
def resourceLogAnalyticsLinkedStorageAccountCreateUpdate (lib : IdLib)
    (client : LinkedStorageAccountClient) (d : ResourceData) (log : List Call) : Outcome :=
  match lib.ParseWorkspaceID d.workspace_resource_id with
  | .error e => ⟨some (Err.workspace e), d, log⟩
  | .ok workspace =>
    let id := derivedId workspace d
    if d.IsNewResource then
      let existing := (client.Get log id).1
      let log1 := log ++ [Call.Get id]
      let probeError : Option Err :=
        match (client.Get log id).2 with
        | some e =>
          if !WasNotFound existing.HttpResponse then some (Err.checkingPresence id e) else none
        | none => none
      match probeError with
      | some e => ⟨some e, d, log1⟩
      | none =>
        if !WasNotFound existing.HttpResponse then
          ⟨some (Err.ImportAsExistsError "azurerm_log_analytics_linked_storage_account"
            (lib.DataSourceTypeID id)), d, log1⟩
        else createUpdateAfterProbe lib client d id log1
    else createUpdateAfterProbe lib client d id log

/-- Delete hook `resourceLogAnalyticsLinkedStorageAccountDelete`. -/
def resourceLogAnalyticsLinkedStorageAccountDelete (lib : IdLib)
    (client : LinkedStorageAccountClient) (d : ResourceData) (log : List Call) : Outcome :=
  match lib.ParseDataSourceTypeIDInsensitively d.Id with
  | .error e => ⟨some (Err.parse e), d, log⟩
  | .ok id =>
    let log1 := log ++ [Call.Delete id]
    match client.Delete log id with
    | some e => ⟨some (Err.deleting id e), d, log1⟩
    | none => ⟨none, d, log1⟩

/-! ## A concrete identifier package and concrete remotes

The path shape of the identifiers is defined by the identifier package. `sdkIds` follows the
shape of the Azure resource identifiers:
`/subscriptions/S/resourceGroups/G/providers/Microsoft.OperationalInsights/workspaces/W` and the
same followed by `/linkedStorageAccounts/T`. It is used to evaluate the hooks on concrete
inputs. -/

/-- The segments of a path, as `strings.Split(s, "/")`. -/
def splitSlash : List Char → List (List Char)
  | [] => [[]]
  | c :: cs =>
    if c = '/' then [] :: splitSlash cs
    else
      match splitSlash cs with
      | [] => [[c]]
      | seg :: rest => (c :: seg) :: rest

/-- A static segment matches its expected value, exactly or ignoring case. -/
def segmentMatches (insensitively : Bool) (expected actual : String) : Bool :=
  if insensitively then EqualFold expected actual else expected == actual

/-- The data source types of identifiers; a segment is matched against them ignoring case when
parsing insensitively and is replaced by the constant it matches. -/
def parseDataSourceTypeSegment (insensitively : Bool) (actual : String) : Option String :=
  [DataSourceTypeAlerts, DataSourceTypeAzureWatson, DataSourceTypeCustomLogs,
    DataSourceTypeQuery].find? (fun v => segmentMatches insensitively v actual)

/-- Parser of workspace identifiers over the path segments. -/
def parseWorkspaceSegments (insensitively : Bool) (segments : List String) :
    Except String WorkspaceId :=
  match segments with
  | [lead, s1, subscriptionId, s2, resourceGroupName, s3, s4, s5, workspaceName] =>
    if lead == "" && segmentMatches insensitively "subscriptions" s1
        && segmentMatches insensitively "resourceGroups" s2
        && segmentMatches insensitively "providers" s3
        && segmentMatches insensitively "Microsoft.OperationalInsights" s4
        && segmentMatches insensitively "workspaces" s5
        && subscriptionId != "" && resourceGroupName != "" && workspaceName != "" then
      .ok ⟨subscriptionId, resourceGroupName, workspaceName⟩
    else .error "parsing the workspace identifier: unexpected segment"
  | _ => .error "parsing the workspace identifier: unexpected number of segments"

/-- Parser of linked storage account identifiers over the path segments. -/
def parseDataSourceTypeSegments (insensitively : Bool) (segments : List String) :
    Except String DataSourceTypeId :=
  match segments with
  | [lead, s1, subscriptionId, s2, resourceGroupName, s3, s4, s5, workspaceName, s6, t] =>
    if lead == "" && segmentMatches insensitively "subscriptions" s1
        && segmentMatches insensitively "resourceGroups" s2
        && segmentMatches insensitively "providers" s3
        && segmentMatches insensitively "Microsoft.OperationalInsights" s4
        && segmentMatches insensitively "workspaces" s5
        && segmentMatches insensitively "linkedStorageAccounts" s6
        && subscriptionId != "" && resourceGroupName != "" && workspaceName != "" then
      match parseDataSourceTypeSegment insensitively t with
      | some dataSourceType =>
        .ok ⟨subscriptionId, resourceGroupName, workspaceName, dataSourceType⟩
      | none => .error "parsing the linked storage account identifier: unexpected data source type"
    else .error "parsing the linked storage account identifier: unexpected segment"
  | _ => .error "parsing the linked storage account identifier: unexpected number of segments"

/-- The identifier package with the Azure path shape. -/
def sdkIds : IdLib where
  ParseWorkspaceID s := parseWorkspaceSegments false ((splitSlash s.data).map String.mk)
  ParseDataSourceTypeIDInsensitively s :=
    parseDataSourceTypeSegments true ((splitSlash s.data).map String.mk)
  WorkspaceID id :=
    "/subscriptions/" ++ id.SubscriptionId ++ "/resourceGroups/" ++ id.ResourceGroupName
      ++ "/providers/Microsoft.OperationalInsights/workspaces/" ++ id.WorkspaceName
  DataSourceTypeID id :=
    "/subscriptions/" ++ id.SubscriptionId ++ "/resourceGroups/" ++ id.ResourceGroupName
      ++ "/providers/Microsoft.OperationalInsights/workspaces/" ++ id.WorkspaceName
      ++ "/linkedStorageAccounts/" ++ id.DataSourceType

/-- The resource stored by a log of calls at the workspace and data source type of `id` (the data
source type compared ignoring case): the input of the last create-or-update there that no
delete follows, with the data source type of the identifier it was created at. -/
def storedAt (id : DataSourceTypeId) : List Call → Option LinkedStorageAccountsResource
  | [] => none
  | c :: rest =>
    match storedAt id rest with
    | some r => some r
    | none =>
      match c with
      | Call.CreateOrUpdate i input =>
        if i.SubscriptionId == id.SubscriptionId && i.ResourceGroupName == id.ResourceGroupName
            && i.WorkspaceName == id.WorkspaceName && EqualFold i.DataSourceType id.DataSourceType
            && !rest.any (fun c2 => c2 == Call.Delete i) then
          some ⟨⟨some i.DataSourceType, input.Properties.StorageAccountIds⟩⟩
        else none
      | _ => none

/-- A remote that stores what it is given: Get answers 200 with the stored resource, or an
error with a 404 response when nothing is stored; create-or-update and delete succeed. -/
def storingClient : LinkedStorageAccountClient where
  Get log id :=
    match storedAt id log with
    | some r => (⟨some 200, some r⟩, none)
    | none => (⟨some 404, none⟩, some "ResourceNotFound")
  CreateOrUpdate _ _ _ := none
  Delete log id :=
    match storedAt id log with
    | some _ => none
    | none => some "ResourceNotFound"

/-- A remote that answers every call the same way. -/
def constantClient (get : GetOperationResponse × Option String) (createOrUpdate : Option String)
    (delete : Option String) : LinkedStorageAccountClient where
  Get _ _ := get
  CreateOrUpdate _ _ _ := createOrUpdate
  Delete _ _ := delete

/-- An example input: a new resource for the data source type `customlogs` of workspace `W`. -/
def exampleInput : ResourceData where
  Id := ""
  IsNewResource := true
  data_source_type := "customlogs"
  resource_group_name := "G"
  workspace_resource_id :=
    "/subscriptions/S/resourceGroups/G/providers/Microsoft.OperationalInsights/workspaces/W"
  storage_account_ids := {"/subscriptions/S/resourceGroups/G/providers/Microsoft.Storage/storageAccounts/A"}

/-- An example of tracked state: the resource of `exampleInput` after its creation. -/
def exampleState : ResourceData where
  Id := "/subscriptions/S/resourceGroups/G/providers/Microsoft.OperationalInsights/workspaces/W/linkedStorageAccounts/customlogs"
  IsNewResource := false
  data_source_type := "customlogs"
  resource_group_name := "G"
  workspace_resource_id :=
    "/subscriptions/S/resourceGroups/G/providers/Microsoft.OperationalInsights/workspaces/W"
  storage_account_ids := {"/subscriptions/S/resourceGroups/G/providers/Microsoft.Storage/storageAccounts/A"}

/-- The example input with a `resource_group_name` that is not the resource group of the
workspace reference. -/
def exampleInputOtherGroup : ResourceData where
  Id := ""
  IsNewResource := true
  data_source_type := "customlogs"
  resource_group_name := "other"
  workspace_resource_id :=
    "/subscriptions/S/resourceGroups/G/providers/Microsoft.OperationalInsights/workspaces/W"
  storage_account_ids := {"/subscriptions/S/resourceGroups/G/providers/Microsoft.Storage/storageAccounts/A"}

/-- The example input with another set of storage accounts, as an update of tracked state. -/
def exampleInputOtherAccounts : ResourceData where
  Id := "/subscriptions/S/resourceGroups/G/providers/Microsoft.OperationalInsights/workspaces/W/linkedStorageAccounts/customlogs"
  IsNewResource := false
  data_source_type := "customlogs"
  resource_group_name := "G"
  workspace_resource_id :=
    "/subscriptions/S/resourceGroups/G/providers/Microsoft.OperationalInsights/workspaces/W"
  storage_account_ids := {"/subscriptions/S/resourceGroups/G/providers/Microsoft.Storage/storageAccounts/B"}

/-! ## Auxiliary facts on the hooks -/

/-- Read issues at most one call, appended to the log. -/
theorem read_calls (lib : IdLib) (client : LinkedStorageAccountClient) (d : ResourceData)
    (log : List Call) :
    ∃ rest, (resourceLogAnalyticsLinkedStorageAccountRead lib client d log).calls = log ++ rest := by
  unfold resourceLogAnalyticsLinkedStorageAccountRead
  cases lib.ParseDataSourceTypeIDInsensitively d.Id with
  | error e => exact ⟨[], by simp⟩
  | ok id =>
    refine ⟨[Call.Get id], ?_⟩
    rcases hg : (client.Get log id).2 with _ | e
    · rcases hm : (client.Get log id).1.Model with _ | m <;> simp [hg, hm]
    · by_cases h : WasNotFound (client.Get log id).1.HttpResponse = true <;> simp [hg, h]

/-- The errors of Read are the parse error and the retrieving error. -/
theorem read_err (lib : IdLib) (client : LinkedStorageAccountClient) (d : ResourceData)
    (log : List Call) :
    (resourceLogAnalyticsLinkedStorageAccountRead lib client d log).err = none
      ∨ (∃ e, (resourceLogAnalyticsLinkedStorageAccountRead lib client d log).err
          = some (Err.parse e))
      ∨ (∃ i e, (resourceLogAnalyticsLinkedStorageAccountRead lib client d log).err
          = some (Err.retrieving i e)) := by
  unfold resourceLogAnalyticsLinkedStorageAccountRead
  cases lib.ParseDataSourceTypeIDInsensitively d.Id with
  | error e => exact Or.inr (Or.inl ⟨e, rfl⟩)
  | ok id =>
    rcases hg : (client.Get log id).2 with _ | e
    · rcases hm : (client.Get log id).1.Model with _ | m <;> simp [hg, hm]
    · by_cases h : WasNotFound (client.Get log id).1.HttpResponse = true <;> simp [hg, h]

/-- After the probe, the first call is the create-or-update call. -/
theorem createUpdateAfterProbe_calls (lib : IdLib) (client : LinkedStorageAccountClient)
    (d : ResourceData) (id : DataSourceTypeId) (log : List Call) :
    ∃ rest, (createUpdateAfterProbe lib client d id log).calls
      = log ++ [Call.CreateOrUpdate id (createParameters d)] ++ rest := by
  unfold createUpdateAfterProbe
  rcases hc : client.CreateOrUpdate log id (createParameters d) with _ | e
  · simpa [hc] using read_calls lib client (d.SetId (lib.DataSourceTypeID id))
      (log ++ [Call.CreateOrUpdate id (createParameters d)])
  · exact ⟨[], by simp [hc]⟩

/-- After the probe, the errors are the create-or-update error and the errors of Read. -/
theorem createUpdateAfterProbe_err (lib : IdLib) (client : LinkedStorageAccountClient)
    (d : ResourceData) (id : DataSourceTypeId) (log : List Call) :
    (∀ i e, (createUpdateAfterProbe lib client d id log).err ≠ some (Err.checkingPresence i e))
      ∧ (∀ n i, (createUpdateAfterProbe lib client d id log).err
          ≠ some (Err.ImportAsExistsError n i)) := by
  unfold createUpdateAfterProbe
  rcases hc : client.CreateOrUpdate log id (createParameters d) with _ | e
  · rcases read_err lib client (d.SetId (lib.DataSourceTypeID id))
      (log ++ [Call.CreateOrUpdate id (createParameters d)]) with h | ⟨e, h⟩ | ⟨i, e, h⟩ <;>
    simp [hc, h]
  · simp [hc]

/-- When the part after the probe returns without error, the identifier it stored parses and
the Get of the reconciling Read either returned without error, the stored identifier being the
derived one, or reported not-found, the stored identifier being cleared. -/
theorem createUpdateAfterProbe_success (lib : IdLib) (client : LinkedStorageAccountClient)
    (d : ResourceData) (id : DataSourceTypeId) (log : List Call)
    (hok : (createUpdateAfterProbe lib client d id log).err = none) :
    ∃ stored, lib.ParseDataSourceTypeIDInsensitively (lib.DataSourceTypeID id) = .ok stored
      ∧ (((client.Get (log ++ [Call.CreateOrUpdate id (createParameters d)]) stored).2 = none
          ∧ (createUpdateAfterProbe lib client d id log).d.Id = lib.DataSourceTypeID id)
        ∨ ((client.Get (log ++ [Call.CreateOrUpdate id (createParameters d)]) stored).2 ≠ none
          ∧ WasNotFound (client.Get (log ++ [Call.CreateOrUpdate id (createParameters d)])
              stored).1.HttpResponse = true
          ∧ (createUpdateAfterProbe lib client d id log).d.Id = "")) := by
  unfold createUpdateAfterProbe at hok ⊢
  rcases hc : client.CreateOrUpdate log id (createParameters d) with _ | e
  · simp only [hc] at hok ⊢
    unfold resourceLogAnalyticsLinkedStorageAccountRead at hok ⊢
    rcases hp : lib.ParseDataSourceTypeIDInsensitively (d.SetId (lib.DataSourceTypeID id)).Id
      with e | stored
    · simp [hp] at hok
    · have hp2 : lib.ParseDataSourceTypeIDInsensitively (lib.DataSourceTypeID id) = .ok stored := hp
      refine ⟨stored, hp2, ?_⟩
      simp only [hp] at hok ⊢
      rcases hg : (client.Get (log ++ [Call.CreateOrUpdate id (createParameters d)]) stored).2
        with _ | e
      · left
        rcases hm : (client.Get (log ++ [Call.CreateOrUpdate id (createParameters d)])
          stored).1.Model with _ | m <;>
        simp [hg, hm, ResourceData.SetId, ResourceData.Set_storage_account_ids,
          ResourceData.Set_data_source_type, ResourceData.Set_workspace_resource_id,
          ResourceData.Set_resource_group_name]
      · right
        by_cases hnf : WasNotFound (client.Get (log ++ [Call.CreateOrUpdate id
          (createParameters d)]) stored).1.HttpResponse = true
        · simp [hg, hnf, ResourceData.SetId]
        · simp [hg, hnf] at hok
  · simp [hc] at hok

/-! ## Schema validation -/

/-- C3 (as the code has it): the `data_source_type` validator accepts a string exactly when it
is, letter case included, one of the five values `customlogs`, `azurewatson`, `query`, `alerts`
and `ingestion`. -/
theorem data_source_type_validation (v : String) :
    dataSourceTypeValidateFunc v = []
      ↔ v ∈ ["customlogs", "azurewatson", "query", "alerts", "ingestion"] := by
  have h1 : ToLower DataSourceTypeCustomLogs = "customlogs" := by decide
  have h2 : ToLower DataSourceTypeAzureWatson = "azurewatson" := by decide
  have h3 : ToLower DataSourceTypeQuery = "query" := by decide
  have h4 : ToLower DataSourceTypeAlerts = "alerts" := by decide
  simp [dataSourceTypeValidateFunc, StringInSlice, h1, h2, h3, h4]
  tauto

/-- Counterexample to C3 as stated: `CustomLogs` equals the allowed value `customlogs` ignoring
letter case, and the validator rejects it. -/
theorem data_source_type_validation_is_case_sensitive :
    ToLower "CustomLogs" ∈ ["customlogs", "azurewatson", "query", "alerts", "ingestion"]
      ∧ dataSourceTypeValidateFunc "CustomLogs" ≠ []
      ∧ dataSourceTypeValidateFunc "customlogs" = [] := by
  decide

/-! ## Create: the derived identifier -/

/-- C4 (as the code has it): the identifier derived by the create and update hook is keyed by the
workspace reference, the `resource_group_name` field and the data source type: two inputs with
the same `workspace_resource_id`, the same `resource_group_name` and the same `data_source_type`
have the same derived identifier string, whatever their other fields are. -/
theorem derived_id_keyed (lib : IdLib) (d1 d2 : ResourceData) (workspace1 workspace2 : WorkspaceId)
    (hws1 : lib.ParseWorkspaceID d1.workspace_resource_id = .ok workspace1)
    (hws2 : lib.ParseWorkspaceID d2.workspace_resource_id = .ok workspace2)
    (hworkspace : d1.workspace_resource_id = d2.workspace_resource_id)
    (hgroup : d1.resource_group_name = d2.resource_group_name)
    (htype : d1.data_source_type = d2.data_source_type) :
    lib.DataSourceTypeID (derivedId workspace1 d1) = lib.DataSourceTypeID (derivedId workspace2 d2) := by
  have hw : workspace1 = workspace2 := by
    rw [hworkspace, hws2] at hws1
    exact (Except.ok.inj hws1).symm
  simp [derivedId, hw, hgroup, htype]

/-- Witness of C4 (as the code has it): two inputs that differ in their storage accounts, their
stored identifier and their being new. -/
theorem derived_id_keyed_witness :
    exampleInput.storage_account_ids ≠ exampleInputOtherAccounts.storage_account_ids
      ∧ sdkIds.DataSourceTypeID (derivedId ⟨"S", "G", "W"⟩ exampleInput)
        = sdkIds.DataSourceTypeID (derivedId ⟨"S", "G", "W"⟩ exampleInputOtherAccounts) :=
  ⟨by decide,
    derived_id_keyed sdkIds exampleInput exampleInputOtherAccounts ⟨"S", "G", "W"⟩ ⟨"S", "G", "W"⟩
      rfl rfl rfl rfl rfl⟩

/-- Counterexample to C4 as stated: two inputs with the same `workspace_resource_id` and the same
`data_source_type` whose `resource_group_name` fields differ have different derived identifier
strings, and a successful Create stores them. -/
theorem derived_id_depends_on_resource_group_name :
    exampleInput.workspace_resource_id = exampleInputOtherGroup.workspace_resource_id
      ∧ exampleInput.data_source_type = exampleInputOtherGroup.data_source_type
      ∧ sdkIds.ParseWorkspaceID exampleInput.workspace_resource_id = .ok ⟨"S", "G", "W"⟩
      ∧ sdkIds.DataSourceTypeID (derivedId ⟨"S", "G", "W"⟩ exampleInput)
        = "/subscriptions/S/resourceGroups/G/providers/Microsoft.OperationalInsights/workspaces/W/linkedStorageAccounts/customlogs"
      ∧ sdkIds.DataSourceTypeID (derivedId ⟨"S", "G", "W"⟩ exampleInputOtherGroup)
        = "/subscriptions/S/resourceGroups/other/providers/Microsoft.OperationalInsights/workspaces/W/linkedStorageAccounts/customlogs"
      ∧ sdkIds.DataSourceTypeID (derivedId ⟨"S", "G", "W"⟩ exampleInput)
        ≠ sdkIds.DataSourceTypeID (derivedId ⟨"S", "G", "W"⟩ exampleInputOtherGroup)
      ∧ (resourceLogAnalyticsLinkedStorageAccountCreateUpdate sdkIds storingClient exampleInput
          []).d.Id
        ≠ (resourceLogAnalyticsLinkedStorageAccountCreateUpdate sdkIds storingClient
          exampleInputOtherGroup []).d.Id :=
  ⟨rfl, rfl, rfl, rfl, rfl, by decide, by decide⟩

/-! ## Create: the existence probe -/

/-- C1: on a Create of a new local entry whose workspace reference parses, when the existence
probe Get at the derived identifier finds a remote resource (it returns without error and its
response is not a not-found), the hook returns the "already exists, import required" error, the
only remote call it issues is that Get (no CreateOrUpdate), and the resource data, the local
identifier included, is left as it was. -/
theorem create_existing_requires_import (lib : IdLib) (client : LinkedStorageAccountClient)
    (d : ResourceData) (log : List Call) (workspace : WorkspaceId)
    (hnew : d.IsNewResource = true)
    (hws : lib.ParseWorkspaceID d.workspace_resource_id = .ok workspace)
    (herr : (client.Get log (derivedId workspace d)).2 = none)
    (hfound : WasNotFound (client.Get log (derivedId workspace d)).1.HttpResponse = false) :
    (resourceLogAnalyticsLinkedStorageAccountCreateUpdate lib client d log).err
        = some (Err.ImportAsExistsError "azurerm_log_analytics_linked_storage_account"
            (lib.DataSourceTypeID (derivedId workspace d)))
      ∧ (resourceLogAnalyticsLinkedStorageAccountCreateUpdate lib client d log).calls
        = log ++ [Call.Get (derivedId workspace d)]
      ∧ (∀ i p, Call.CreateOrUpdate i p ∉ [Call.Get (derivedId workspace d)])
      ∧ (resourceLogAnalyticsLinkedStorageAccountCreateUpdate lib client d log).d = d := by
  simp [resourceLogAnalyticsLinkedStorageAccountCreateUpdate, hws, hnew, herr, hfound]

/-- Witness of C1: a remote that answers the probe with 200 and a model. -/
theorem create_existing_requires_import_witness :
    (resourceLogAnalyticsLinkedStorageAccountCreateUpdate sdkIds
        (constantClient (⟨some 200, some ⟨⟨some "CustomLogs", some []⟩⟩⟩, none) none none)
        exampleInput []).err
      = some (Err.ImportAsExistsError "azurerm_log_analytics_linked_storage_account"
          "/subscriptions/S/resourceGroups/G/providers/Microsoft.OperationalInsights/workspaces/W/linkedStorageAccounts/customlogs")
    ∧ (resourceLogAnalyticsLinkedStorageAccountCreateUpdate sdkIds
        (constantClient (⟨some 200, some ⟨⟨some "CustomLogs", some []⟩⟩⟩, none) none none)
        exampleInput []).calls = [Call.Get ⟨"S", "G", "W", "customlogs"⟩]
    ∧ (resourceLogAnalyticsLinkedStorageAccountCreateUpdate sdkIds
        (constantClient (⟨some 200, some ⟨⟨some "CustomLogs", some []⟩⟩⟩, none) none none)
        exampleInput []).d = exampleInput := by
  have h := create_existing_requires_import sdkIds
    (constantClient (⟨some 200, some ⟨⟨some "CustomLogs", some []⟩⟩⟩, none) none none)
    exampleInput [] ⟨"S", "G", "W"⟩ rfl rfl rfl rfl
  exact ⟨h.1, h.2.1, h.2.2.2⟩

/-- C9: on a Create of a new local entry whose workspace reference parses, (1) when the probe Get
fails with an error and its response is not a not-found (a nil response included), the hook
returns an error, issues no call but that Get and leaves the resource data, the local
identifier included, as it was; (2) when the response of the probe is a not-found, the hook does
not return at the probe: its next remote call is CreateOrUpdate at the derived identifier with
the current storage account ids, and the error it returns, if any, is neither of the two probe
errors. -/
theorem create_probe_error_handling (lib : IdLib) (client : LinkedStorageAccountClient)
    (d : ResourceData) (log : List Call) (workspace : WorkspaceId)
    (hnew : d.IsNewResource = true)
    (hws : lib.ParseWorkspaceID d.workspace_resource_id = .ok workspace) :
    (∀ e, (client.Get log (derivedId workspace d)).2 = some e →
        WasNotFound (client.Get log (derivedId workspace d)).1.HttpResponse = false →
        (resourceLogAnalyticsLinkedStorageAccountCreateUpdate lib client d log).err
            = some (Err.checkingPresence (derivedId workspace d) e)
          ∧ (resourceLogAnalyticsLinkedStorageAccountCreateUpdate lib client d log).calls
            = log ++ [Call.Get (derivedId workspace d)]
          ∧ (resourceLogAnalyticsLinkedStorageAccountCreateUpdate lib client d log).d = d)
      ∧ (WasNotFound (client.Get log (derivedId workspace d)).1.HttpResponse = true →
        (∃ rest, (resourceLogAnalyticsLinkedStorageAccountCreateUpdate lib client d log).calls
            = log ++ [Call.Get (derivedId workspace d),
                Call.CreateOrUpdate (derivedId workspace d) (createParameters d)] ++ rest)
          ∧ (∀ i e, (resourceLogAnalyticsLinkedStorageAccountCreateUpdate lib client d log).err
              ≠ some (Err.checkingPresence i e))
          ∧ (∀ n i, (resourceLogAnalyticsLinkedStorageAccountCreateUpdate lib client d log).err
              ≠ some (Err.ImportAsExistsError n i))) := by
  constructor
  · intro e herr hnf
    simp [resourceLogAnalyticsLinkedStorageAccountCreateUpdate, hws, hnew, herr, hnf]
  · intro hnf
    have hprobe : resourceLogAnalyticsLinkedStorageAccountCreateUpdate lib client d log
        = createUpdateAfterProbe lib client d (derivedId workspace d)
            (log ++ [Call.Get (derivedId workspace d)]) := by
      simp only [resourceLogAnalyticsLinkedStorageAccountCreateUpdate, hws, hnew, hnf]
      cases (client.Get log (derivedId workspace d)).2 <;> simp
    rw [hprobe]
    refine ⟨?_, createUpdateAfterProbe_err lib client d _ _⟩
    obtain ⟨rest, h⟩ := createUpdateAfterProbe_calls lib client d (derivedId workspace d)
      (log ++ [Call.Get (derivedId workspace d)])
    exact ⟨rest, by simp [h]⟩

/-- Witness of C9: a probe failing with a 500 response, a probe failing without any response,
and a probe answered by a not-found. -/
theorem create_probe_error_handling_witness :
    ((resourceLogAnalyticsLinkedStorageAccountCreateUpdate sdkIds
          (constantClient (⟨some 500, none⟩, some "InternalServerError") none none)
          exampleInput []).err
        = some (Err.checkingPresence ⟨"S", "G", "W", "customlogs"⟩ "InternalServerError")
      ∧ (resourceLogAnalyticsLinkedStorageAccountCreateUpdate sdkIds
          (constantClient (⟨some 500, none⟩, some "InternalServerError") none none)
          exampleInput []).calls = [Call.Get ⟨"S", "G", "W", "customlogs"⟩]
      ∧ (resourceLogAnalyticsLinkedStorageAccountCreateUpdate sdkIds
          (constantClient (⟨some 500, none⟩, some "InternalServerError") none none)
          exampleInput []).d = exampleInput)
    ∧ ((resourceLogAnalyticsLinkedStorageAccountCreateUpdate sdkIds
          (constantClient (⟨none, none⟩, some "connection refused") none none)
          exampleInput []).err
        = some (Err.checkingPresence ⟨"S", "G", "W", "customlogs"⟩ "connection refused")
      ∧ (resourceLogAnalyticsLinkedStorageAccountCreateUpdate sdkIds
          (constantClient (⟨none, none⟩, some "connection refused") none none)
          exampleInput []).calls = [Call.Get ⟨"S", "G", "W", "customlogs"⟩]
      ∧ (resourceLogAnalyticsLinkedStorageAccountCreateUpdate sdkIds
          (constantClient (⟨none, none⟩, some "connection refused") none none)
          exampleInput []).d = exampleInput)
    ∧ (∃ rest, (resourceLogAnalyticsLinkedStorageAccountCreateUpdate sdkIds storingClient
          exampleInput []).calls
        = [Call.Get ⟨"S", "G", "W", "customlogs"⟩,
            Call.CreateOrUpdate ⟨"S", "G", "W", "customlogs"⟩ (createParameters exampleInput)]
          ++ rest) :=
  ⟨(create_probe_error_handling sdkIds
      (constantClient (⟨some 500, none⟩, some "InternalServerError") none none)
      exampleInput [] ⟨"S", "G", "W"⟩ rfl rfl).1 "InternalServerError" rfl rfl,
    (create_probe_error_handling sdkIds
      (constantClient (⟨none, none⟩, some "connection refused") none none)
      exampleInput [] ⟨"S", "G", "W"⟩ rfl rfl).1 "connection refused" rfl rfl,
    ((create_probe_error_handling sdkIds storingClient exampleInput [] ⟨"S", "G", "W"⟩
      rfl rfl).2 rfl).1⟩

/-! ## Create: the stored identifier -/

/-- C8 (as the code has it): whenever the create and update hook returns without error, the
workspace reference parsed, the identifier it stored parsed, and the Get of the reconciling Read
either returned without error, in which case the locally stored identifier is the identifier
derived from the input, or reported not-found (an error with a not-found response), in which
case Read cleared the local identifier and it is the empty string. -/
theorem create_success_stored_id (lib : IdLib) (client : LinkedStorageAccountClient)
    (d : ResourceData) (log : List Call)
    (hok : (resourceLogAnalyticsLinkedStorageAccountCreateUpdate lib client d log).err = none) :
    ∃ workspace stored,
      lib.ParseWorkspaceID d.workspace_resource_id = .ok workspace
      ∧ lib.ParseDataSourceTypeIDInsensitively (lib.DataSourceTypeID (derivedId workspace d))
          = .ok stored
      ∧ (((client.Get ((if d.IsNewResource then log ++ [Call.Get (derivedId workspace d)] else log)
              ++ [Call.CreateOrUpdate (derivedId workspace d) (createParameters d)]) stored).2
            = none
          ∧ (resourceLogAnalyticsLinkedStorageAccountCreateUpdate lib client d log).d.Id
            = lib.DataSourceTypeID (derivedId workspace d))
        ∨ ((client.Get ((if d.IsNewResource then log ++ [Call.Get (derivedId workspace d)] else log)
              ++ [Call.CreateOrUpdate (derivedId workspace d) (createParameters d)]) stored).2
            ≠ none
          ∧ WasNotFound (client.Get
              ((if d.IsNewResource then log ++ [Call.Get (derivedId workspace d)] else log)
                ++ [Call.CreateOrUpdate (derivedId workspace d) (createParameters d)])
              stored).1.HttpResponse = true
          ∧ (resourceLogAnalyticsLinkedStorageAccountCreateUpdate lib client d log).d.Id
            = "")) := by
  unfold resourceLogAnalyticsLinkedStorageAccountCreateUpdate at hok ⊢
  rcases hws : lib.ParseWorkspaceID d.workspace_resource_id with e | workspace
  · simp [hws] at hok
  · simp only [hws] at hok ⊢
    refine ⟨workspace, ?_⟩
    by_cases hnew : d.IsNewResource = true
    · simp only [hnew, if_true] at hok ⊢
      by_cases hnf : WasNotFound (client.Get log (derivedId workspace d)).1.HttpResponse = true
      · rcases hg : (client.Get log (derivedId workspace d)).2 with _ | e
        · simp only [hg, hnf] at hok ⊢
          obtain ⟨stored, h1, h2⟩ := createUpdateAfterProbe_success lib client d _ _ hok
          exact ⟨stored, trivial, h1, h2⟩
        · simp only [hg, hnf] at hok ⊢
          obtain ⟨stored, h1, h2⟩ := createUpdateAfterProbe_success lib client d _ _ hok
          exact ⟨stored, trivial, h1, h2⟩
      · rcases hg : (client.Get log (derivedId workspace d)).2 with _ | e <;>
          simp [hg, hnf] at hok
    · simp only [hnew] at hok ⊢
      obtain ⟨stored, h1, h2⟩ := createUpdateAfterProbe_success lib client d _ _ hok
      exact ⟨stored, trivial, h1, h2⟩

/-- Witness of C8 (as the code has it): a Create against a remote that stores what it is
given. -/
theorem create_success_stored_id_witness :
    (resourceLogAnalyticsLinkedStorageAccountCreateUpdate sdkIds storingClient exampleInput
        []).err = none
      ∧ ∃ workspace stored,
        sdkIds.ParseWorkspaceID exampleInput.workspace_resource_id = .ok workspace
        ∧ sdkIds.ParseDataSourceTypeIDInsensitively
            (sdkIds.DataSourceTypeID (derivedId workspace exampleInput)) = .ok stored
        ∧ (((storingClient.Get
                ((if exampleInput.IsNewResource then
                    [] ++ [Call.Get (derivedId workspace exampleInput)] else [])
                  ++ [Call.CreateOrUpdate (derivedId workspace exampleInput)
                    (createParameters exampleInput)]) stored).2 = none
            ∧ (resourceLogAnalyticsLinkedStorageAccountCreateUpdate sdkIds storingClient
                exampleInput []).d.Id
              = sdkIds.DataSourceTypeID (derivedId workspace exampleInput))
          ∨ ((storingClient.Get
                ((if exampleInput.IsNewResource then
                    [] ++ [Call.Get (derivedId workspace exampleInput)] else [])
                  ++ [Call.CreateOrUpdate (derivedId workspace exampleInput)
                    (createParameters exampleInput)]) stored).2 ≠ none
            ∧ WasNotFound (storingClient.Get
                ((if exampleInput.IsNewResource then
                    [] ++ [Call.Get (derivedId workspace exampleInput)] else [])
                  ++ [Call.CreateOrUpdate (derivedId workspace exampleInput)
                    (createParameters exampleInput)]) stored).1.HttpResponse = true
            ∧ (resourceLogAnalyticsLinkedStorageAccountCreateUpdate sdkIds storingClient
                exampleInput []).d.Id = "")) :=
  ⟨rfl, create_success_stored_id sdkIds storingClient exampleInput [] rfl⟩

/-- Counterexample to C8 as stated: the remote answers the probe and the Get of the reconciling
Read with not-found and accepts the create-or-update call; the hook returns without error and
the locally stored identifier is empty, not the identifier derived from the input. -/
theorem create_success_with_cleared_id :
    (resourceLogAnalyticsLinkedStorageAccountCreateUpdate sdkIds
        (constantClient (⟨some 404, none⟩, some "ResourceNotFound") none none)
        exampleInput []).err = none
      ∧ (resourceLogAnalyticsLinkedStorageAccountCreateUpdate sdkIds
        (constantClient (⟨some 404, none⟩, some "ResourceNotFound") none none)
        exampleInput []).d.Id = ""
      ∧ sdkIds.ParseWorkspaceID exampleInput.workspace_resource_id = .ok ⟨"S", "G", "W"⟩
      ∧ sdkIds.DataSourceTypeID (derivedId ⟨"S", "G", "W"⟩ exampleInput)
        = "/subscriptions/S/resourceGroups/G/providers/Microsoft.OperationalInsights/workspaces/W/linkedStorageAccounts/customlogs"
      ∧ (resourceLogAnalyticsLinkedStorageAccountCreateUpdate sdkIds
        (constantClient (⟨some 404, none⟩, some "ResourceNotFound") none none)
        exampleInput []).d.Id ≠ sdkIds.DataSourceTypeID (derivedId ⟨"S", "G", "W"⟩ exampleInput) :=
  ⟨rfl, rfl, rfl, rfl, by decide⟩

/-! ## Read -/

/-- C2: when the stored identifier parses and the remote Get reports not-found (it returns an
error and its response is a not-found), Read returns no error and sets the local identifier to
the empty string; the other fields are left as they were. -/
theorem read_not_found_clears_id (lib : IdLib) (client : LinkedStorageAccountClient)
    (d : ResourceData) (log : List Call) (id : DataSourceTypeId) (e : String)
    (hid : lib.ParseDataSourceTypeIDInsensitively d.Id = .ok id)
    (herr : (client.Get log id).2 = some e)
    (hnf : WasNotFound (client.Get log id).1.HttpResponse = true) :
    (resourceLogAnalyticsLinkedStorageAccountRead lib client d log).err = none
      ∧ (resourceLogAnalyticsLinkedStorageAccountRead lib client d log).d.Id = ""
      ∧ (resourceLogAnalyticsLinkedStorageAccountRead lib client d log).d = d.SetId "" := by
  simp [resourceLogAnalyticsLinkedStorageAccountRead, hid, herr, hnf, ResourceData.SetId]

/-- Witness of C2: the tracked resource is gone from the remote. -/
theorem read_not_found_clears_id_witness :
    (resourceLogAnalyticsLinkedStorageAccountRead sdkIds storingClient exampleState []).err = none
      ∧ (resourceLogAnalyticsLinkedStorageAccountRead sdkIds storingClient exampleState []).d.Id
        = "" :=
  have h := read_not_found_clears_id sdkIds storingClient exampleState []
    ⟨"S", "G", "W", "CustomLogs"⟩ "ResourceNotFound" rfl rfl rfl
  ⟨h.1, h.2.1⟩

/-- C6: when the stored identifier parses and the remote Get returns without error and with a
model, the `storage_account_ids` that Read leaves in local state is the set of the elements of
the storage account id list of the model (the empty set when the model omits the list): a string
is in the set exactly when it is in the list, whatever the order of the list, so that whenever
the list is a permutation of the listing of a submitted set, the set read back is the submitted
set. -/
theorem read_storage_account_ids (lib : IdLib) (client : LinkedStorageAccountClient)
    (d : ResourceData) (log : List Call) (id : DataSourceTypeId)
    (model : LinkedStorageAccountsResource)
    (hid : lib.ParseDataSourceTypeIDInsensitively d.Id = .ok id)
    (herr : (client.Get log id).2 = none)
    (hmodel : (client.Get log id).1.Model = some model) :
    (resourceLogAnalyticsLinkedStorageAccountRead lib client d log).err = none
      ∧ (model.Properties.StorageAccountIds = none →
          (resourceLogAnalyticsLinkedStorageAccountRead lib client d log).d.storage_account_ids
            = ∅)
      ∧ (∀ ids, model.Properties.StorageAccountIds = some ids →
          (resourceLogAnalyticsLinkedStorageAccountRead lib client d log).d.storage_account_ids
              = ids.toFinset
            ∧ (∀ x, x ∈ (resourceLogAnalyticsLinkedStorageAccountRead lib client d
                  log).d.storage_account_ids ↔ x ∈ ids)
            ∧ (∀ submitted : Finset String, ids.Perm (SetList submitted) →
                (resourceLogAnalyticsLinkedStorageAccountRead lib client d
                  log).d.storage_account_ids = submitted)) := by
  have hread : (resourceLogAnalyticsLinkedStorageAccountRead lib client d log).d.storage_account_ids
      = (match model.Properties.StorageAccountIds with
         | some ids => ids
         | none => []).toFinset := by
    simp [resourceLogAnalyticsLinkedStorageAccountRead, hid, herr, hmodel,
      ResourceData.Set_storage_account_ids, ResourceData.Set_data_source_type]
  refine ⟨?_, ?_, ?_⟩
  · simp [resourceLogAnalyticsLinkedStorageAccountRead, hid, herr, hmodel]
  · intro hnone
    rw [hread, hnone]
    rfl
  · intro ids hsome
    rw [hread, hsome]
    refine ⟨rfl, fun x => List.mem_toFinset, fun submitted hperm => ?_⟩
    ext x
    rw [List.mem_toFinset, hperm.mem_iff]
    simp [SetList]

/-- Witness of C6: the remote returns the two submitted storage accounts in the other order. -/
theorem read_storage_account_ids_witness :
    (resourceLogAnalyticsLinkedStorageAccountRead sdkIds
        (constantClient (⟨some 200, some ⟨⟨some "customlogs", some ["b", "a"]⟩⟩⟩, none) none none)
        exampleState []).d.storage_account_ids = {"a", "b"} :=
  ((read_storage_account_ids sdkIds
      (constantClient (⟨some 200, some ⟨⟨some "customlogs", some ["b", "a"]⟩⟩⟩, none) none none)
      exampleState [] ⟨"S", "G", "W", "CustomLogs"⟩ ⟨⟨some "customlogs", some ["b", "a"]⟩⟩
      rfl rfl rfl).2.2 ["b", "a"] rfl).2.2 {"a", "b"}
    ((List.perm_ext_iff_of_nodup (by decide) (Finset.sort_nodup _ _)).2
      (fun x => by simp [SetList, or_comm]))

/-- C7 (as the code has it): when the stored identifier parses and the remote Get returns
without error, the `data_source_type` that Read leaves in local state is the data source type of
the remote model, or the empty string when the model omits it, provided the response carries a
model; when the response carries no model, `data_source_type` keeps its previous value. -/
theorem read_data_source_type (lib : IdLib) (client : LinkedStorageAccountClient)
    (d : ResourceData) (log : List Call) (id : DataSourceTypeId)
    (hid : lib.ParseDataSourceTypeIDInsensitively d.Id = .ok id)
    (herr : (client.Get log id).2 = none) :
    (resourceLogAnalyticsLinkedStorageAccountRead lib client d log).err = none
      ∧ (resourceLogAnalyticsLinkedStorageAccountRead lib client d log).d.data_source_type
        = (match (client.Get log id).1.Model with
           | some model =>
             (match model.Properties.DataSourceType with
              | some t => t
              | none => "")
           | none => d.data_source_type) := by
  rcases hm : (client.Get log id).1.Model with _ | model <;>
    simp [resourceLogAnalyticsLinkedStorageAccountRead, hid, herr, hm,
      ResourceData.Set_storage_account_ids, ResourceData.Set_data_source_type,
      ResourceData.Set_workspace_resource_id, ResourceData.Set_resource_group_name]

/-- Witness of C7 (as the code has it): a model that omits the data source type. -/
theorem read_data_source_type_witness :
    (resourceLogAnalyticsLinkedStorageAccountRead sdkIds
        (constantClient (⟨some 200, some ⟨⟨none, some ["a"]⟩⟩⟩, none) none none)
        exampleState []).d.data_source_type = "" :=
  (read_data_source_type sdkIds
    (constantClient (⟨some 200, some ⟨⟨none, some ["a"]⟩⟩⟩, none) none none)
    exampleState [] ⟨"S", "G", "W", "CustomLogs"⟩ rfl rfl).2

/-- Counterexample to C7 as stated: the remote Get returns without error and without a model;
Read returns no error and `data_source_type` is left at its previous local value
`customlogs`, which is not the empty string. -/
theorem read_data_source_type_stale :
    sdkIds.ParseDataSourceTypeIDInsensitively exampleState.Id = .ok ⟨"S", "G", "W", "CustomLogs"⟩
      ∧ ((constantClient (⟨some 200, none⟩, none) none none).Get []
          ⟨"S", "G", "W", "CustomLogs"⟩).2 = none
      ∧ ((constantClient (⟨some 200, none⟩, none) none none).Get []
          ⟨"S", "G", "W", "CustomLogs"⟩).1.Model = none
      ∧ (resourceLogAnalyticsLinkedStorageAccountRead sdkIds
          (constantClient (⟨some 200, none⟩, none) none none) exampleState []).err = none
      ∧ (resourceLogAnalyticsLinkedStorageAccountRead sdkIds
          (constantClient (⟨some 200, none⟩, none) none none) exampleState []).d.data_source_type
        = "customlogs"
      ∧ exampleState.data_source_type = "customlogs"
      ∧ (resourceLogAnalyticsLinkedStorageAccountRead sdkIds
          (constantClient (⟨some 200, none⟩, none) none none) exampleState []).d.data_source_type
        ≠ "" :=
  ⟨rfl, rfl, rfl, rfl, rfl, rfl, by decide⟩

/-! ## Create then Read -/

/-- C5 (as the code has it): take a new input whose `workspace_resource_id` parses, whose
`resource_group_name` is the resource group of the parsed workspace, and on which the identifier
package round-trips (the workspace reference is the string of its parsed value, and the derived
identifier string parses back to the same subscription, resource group and workspace name).
Against a remote that answers the probe at the derived identifier with not-found, accepts the
create-or-update call, and answers the Get of the reconciling Read and of the following Read
without error and with what CreateOrUpdate was given, under the data source type of the derived
identifier, Create returns without error, the Read that follows returns without error, and
`data_source_type`, `workspace_resource_id` and `storage_account_ids` in local state equal the
values submitted. -/
theorem create_then_read_round_trip (lib : IdLib) (client : LinkedStorageAccountClient)
    (d : ResourceData) (log : List Call) (workspace : WorkspaceId) (stored : DataSourceTypeId)
    (hnew : d.IsNewResource = true)
    (hws : lib.ParseWorkspaceID d.workspace_resource_id = .ok workspace)
    (hgroup : d.resource_group_name = workspace.ResourceGroupName)
    (hcanon : lib.WorkspaceID workspace = d.workspace_resource_id)
    (hstored : lib.ParseDataSourceTypeIDInsensitively
      (lib.DataSourceTypeID (derivedId workspace d)) = .ok stored)
    (hsame : stored.SubscriptionId = workspace.SubscriptionId
      ∧ stored.ResourceGroupName = d.resource_group_name
      ∧ stored.WorkspaceName = workspace.WorkspaceName)
    (hprobe : WasNotFound (client.Get log (derivedId workspace d)).1.HttpResponse = true)
    (hcreate : client.CreateOrUpdate (log ++ [Call.Get (derivedId workspace d)])
      (derivedId workspace d) (createParameters d) = none)
    (hget1 : (client.Get (log ++ [Call.Get (derivedId workspace d)]
          ++ [Call.CreateOrUpdate (derivedId workspace d) (createParameters d)]) stored).2 = none
      ∧ (client.Get (log ++ [Call.Get (derivedId workspace d)]
          ++ [Call.CreateOrUpdate (derivedId workspace d) (createParameters d)]) stored).1.Model
        = some ⟨⟨some d.data_source_type, (createParameters d).Properties.StorageAccountIds⟩⟩)
    (hget2 : (client.Get (log ++ [Call.Get (derivedId workspace d)]
          ++ [Call.CreateOrUpdate (derivedId workspace d) (createParameters d)]
          ++ [Call.Get stored]) stored).2 = none
      ∧ (client.Get (log ++ [Call.Get (derivedId workspace d)]
          ++ [Call.CreateOrUpdate (derivedId workspace d) (createParameters d)]
          ++ [Call.Get stored]) stored).1.Model
        = some ⟨⟨some d.data_source_type, (createParameters d).Properties.StorageAccountIds⟩⟩) :
    (resourceLogAnalyticsLinkedStorageAccountCreateUpdate lib client d log).err = none
      ∧ (resourceLogAnalyticsLinkedStorageAccountRead lib client
          (resourceLogAnalyticsLinkedStorageAccountCreateUpdate lib client d log).d
          (resourceLogAnalyticsLinkedStorageAccountCreateUpdate lib client d log).calls).err = none
      ∧ (resourceLogAnalyticsLinkedStorageAccountRead lib client
          (resourceLogAnalyticsLinkedStorageAccountCreateUpdate lib client d log).d
          (resourceLogAnalyticsLinkedStorageAccountCreateUpdate lib client d log).calls
          ).d.data_source_type = d.data_source_type
      ∧ (resourceLogAnalyticsLinkedStorageAccountRead lib client
          (resourceLogAnalyticsLinkedStorageAccountCreateUpdate lib client d log).d
          (resourceLogAnalyticsLinkedStorageAccountCreateUpdate lib client d log).calls
          ).d.workspace_resource_id = d.workspace_resource_id
      ∧ (resourceLogAnalyticsLinkedStorageAccountRead lib client
          (resourceLogAnalyticsLinkedStorageAccountCreateUpdate lib client d log).d
          (resourceLogAnalyticsLinkedStorageAccountCreateUpdate lib client d log).calls
          ).d.storage_account_ids = d.storage_account_ids := by
  obtain ⟨hsub, hrg, hname⟩ := hsame
  have hwsid : lib.WorkspaceID (NewWorkspaceID stored.SubscriptionId stored.ResourceGroupName
      stored.WorkspaceName) = d.workspace_resource_id := by
    rw [hsub, hrg, hname, hgroup]
    exact hcanon
  have hids : (SetList d.storage_account_ids).toFinset = d.storage_account_ids := by
    simp [SetList]
  have hcreated : resourceLogAnalyticsLinkedStorageAccountCreateUpdate lib client d log
      = ⟨none,
          ((((d.SetId (lib.DataSourceTypeID (derivedId workspace d))).Set_resource_group_name
            stored.ResourceGroupName).Set_workspace_resource_id
            d.workspace_resource_id).Set_storage_account_ids
            (SetList d.storage_account_ids)).Set_data_source_type d.data_source_type,
          log ++ [Call.Get (derivedId workspace d)]
            ++ [Call.CreateOrUpdate (derivedId workspace d) (createParameters d)]
            ++ [Call.Get stored]⟩ := by
    have hafter : createUpdateAfterProbe lib client d (derivedId workspace d)
        (log ++ [Call.Get (derivedId workspace d)])
        = ⟨none,
          ((((d.SetId (lib.DataSourceTypeID (derivedId workspace d))).Set_resource_group_name
            stored.ResourceGroupName).Set_workspace_resource_id
            d.workspace_resource_id).Set_storage_account_ids
            (SetList d.storage_account_ids)).Set_data_source_type d.data_source_type,
          log ++ [Call.Get (derivedId workspace d)]
            ++ [Call.CreateOrUpdate (derivedId workspace d) (createParameters d)]
            ++ [Call.Get stored]⟩ := by
      have hstored2 : lib.ParseDataSourceTypeIDInsensitively
          (d.SetId (lib.DataSourceTypeID (derivedId workspace d))).Id = .ok stored := hstored
      simp only [createUpdateAfterProbe, hcreate, resourceLogAnalyticsLinkedStorageAccountRead,
        hstored2, hget1.1, hget1.2, hwsid]
      simp [createParameters, ExpandStringSlice]
    simp only [resourceLogAnalyticsLinkedStorageAccountCreateUpdate, hws, hnew, hprobe, if_true]
    rcases hg : (client.Get log (derivedId workspace d)).2 with _ | e <;> simp [hg, hafter]
  rw [hcreated]
  have hstored3 : lib.ParseDataSourceTypeIDInsensitively
      (((((d.SetId (lib.DataSourceTypeID (derivedId workspace d))).Set_resource_group_name
            stored.ResourceGroupName).Set_workspace_resource_id
            d.workspace_resource_id).Set_storage_account_ids
            (SetList d.storage_account_ids)).Set_data_source_type d.data_source_type).Id
      = .ok stored := hstored
  simp only [resourceLogAnalyticsLinkedStorageAccountRead, hstored3, hget2.1, hget2.2, hwsid]
  simp [createParameters, ExpandStringSlice, ResourceData.Set_storage_account_ids,
    ResourceData.Set_data_source_type, ResourceData.Set_workspace_resource_id, hids]

/-- Witness of C5 (as the code has it): the example input against a remote that stores what it
is given. -/
theorem create_then_read_round_trip_witness :
    (resourceLogAnalyticsLinkedStorageAccountCreateUpdate sdkIds storingClient exampleInput
        []).err = none
      ∧ (resourceLogAnalyticsLinkedStorageAccountRead sdkIds storingClient
          (resourceLogAnalyticsLinkedStorageAccountCreateUpdate sdkIds storingClient exampleInput
            []).d
          (resourceLogAnalyticsLinkedStorageAccountCreateUpdate sdkIds storingClient exampleInput
            []).calls).err = none
      ∧ (resourceLogAnalyticsLinkedStorageAccountRead sdkIds storingClient
          (resourceLogAnalyticsLinkedStorageAccountCreateUpdate sdkIds storingClient exampleInput
            []).d
          (resourceLogAnalyticsLinkedStorageAccountCreateUpdate sdkIds storingClient exampleInput
            []).calls).d.data_source_type = exampleInput.data_source_type
      ∧ (resourceLogAnalyticsLinkedStorageAccountRead sdkIds storingClient
          (resourceLogAnalyticsLinkedStorageAccountCreateUpdate sdkIds storingClient exampleInput
            []).d
          (resourceLogAnalyticsLinkedStorageAccountCreateUpdate sdkIds storingClient exampleInput
            []).calls).d.workspace_resource_id = exampleInput.workspace_resource_id
      ∧ (resourceLogAnalyticsLinkedStorageAccountRead sdkIds storingClient
          (resourceLogAnalyticsLinkedStorageAccountCreateUpdate sdkIds storingClient exampleInput
            []).d
          (resourceLogAnalyticsLinkedStorageAccountCreateUpdate sdkIds storingClient exampleInput
            []).calls).d.storage_account_ids = exampleInput.storage_account_ids :=
  create_then_read_round_trip sdkIds storingClient exampleInput [] ⟨"S", "G", "W"⟩
    ⟨"S", "G", "W", "CustomLogs"⟩ rfl rfl rfl rfl rfl ⟨rfl, rfl, rfl⟩ rfl rfl ⟨rfl, rfl⟩ ⟨rfl, rfl⟩

/-- Counterexample to C5 as stated: the `workspace_resource_id` of the input parses, its
`resource_group_name` is `other` while the workspace is in resource group `G`; the remote has
nothing at the derived identifier and afterwards returns from Get what CreateOrUpdate was given.
Create and the Read that follows return without error, and `workspace_resource_id` in local
state is the reference of a workspace in resource group `other`, not the value submitted. -/
theorem create_then_read_changes_workspace_resource_id :
    sdkIds.ParseWorkspaceID exampleInputOtherGroup.workspace_resource_id = .ok ⟨"S", "G", "W"⟩
      ∧ (storingClient.Get [] (derivedId ⟨"S", "G", "W"⟩ exampleInputOtherGroup)).1.HttpResponse
        = some 404
      ∧ (resourceLogAnalyticsLinkedStorageAccountCreateUpdate sdkIds storingClient
          exampleInputOtherGroup []).err = none
      ∧ (storingClient.Get
          (resourceLogAnalyticsLinkedStorageAccountCreateUpdate sdkIds storingClient
            exampleInputOtherGroup []).calls ⟨"S", "other", "W", "CustomLogs"⟩)
        = (⟨some 200, some ⟨⟨some "customlogs",
            (createParameters exampleInputOtherGroup).Properties.StorageAccountIds⟩⟩⟩, none)
      ∧ (resourceLogAnalyticsLinkedStorageAccountRead sdkIds storingClient
          (resourceLogAnalyticsLinkedStorageAccountCreateUpdate sdkIds storingClient
            exampleInputOtherGroup []).d
          (resourceLogAnalyticsLinkedStorageAccountCreateUpdate sdkIds storingClient
            exampleInputOtherGroup []).calls).err = none
      ∧ (resourceLogAnalyticsLinkedStorageAccountRead sdkIds storingClient
          (resourceLogAnalyticsLinkedStorageAccountCreateUpdate sdkIds storingClient
            exampleInputOtherGroup []).d
          (resourceLogAnalyticsLinkedStorageAccountCreateUpdate sdkIds storingClient
            exampleInputOtherGroup []).calls).d.workspace_resource_id
        = "/subscriptions/S/resourceGroups/other/providers/Microsoft.OperationalInsights/workspaces/W"
      ∧ (resourceLogAnalyticsLinkedStorageAccountRead sdkIds storingClient
          (resourceLogAnalyticsLinkedStorageAccountCreateUpdate sdkIds storingClient
            exampleInputOtherGroup []).d
          (resourceLogAnalyticsLinkedStorageAccountCreateUpdate sdkIds storingClient
            exampleInputOtherGroup []).calls).d.workspace_resource_id
        ≠ exampleInputOtherGroup.workspace_resource_id :=
  ⟨rfl, rfl, rfl, rfl, rfl, rfl, by decide⟩

/-! ## Delete -/

/-- C10: Delete returns an error exactly when the stored identifier fails to parse or the
remote Delete returns an error (whatever that error is, a not-found included); when the
identifier parses the only call it issues is one Delete at the parsed identifier, when it does
not parse it issues no call; it never issues a Get and never changes the resource data, the
local identifier included. -/
theorem delete_contract (lib : IdLib) (client : LinkedStorageAccountClient)
    (d : ResourceData) (log : List Call) :
    ((resourceLogAnalyticsLinkedStorageAccountDelete lib client d log).err ≠ none
        ↔ (∃ e, lib.ParseDataSourceTypeIDInsensitively d.Id = .error e)
          ∨ (∃ id e, lib.ParseDataSourceTypeIDInsensitively d.Id = .ok id
              ∧ client.Delete log id = some e))
      ∧ (resourceLogAnalyticsLinkedStorageAccountDelete lib client d log).calls
        = (match lib.ParseDataSourceTypeIDInsensitively d.Id with
           | .ok id => log ++ [Call.Delete id]
           | .error _ => log)
      ∧ (∀ i, Call.Get i ∉
          (match lib.ParseDataSourceTypeIDInsensitively d.Id with
           | .ok id => [Call.Delete id]
           | .error _ => []))
      ∧ (resourceLogAnalyticsLinkedStorageAccountDelete lib client d log).d = d := by
  unfold resourceLogAnalyticsLinkedStorageAccountDelete
  rcases hp : lib.ParseDataSourceTypeIDInsensitively d.Id with e | id
  · simp
  · rcases hd : client.Delete log id with _ | e <;> simp [hd]

end LogAnalytics
